import Mathlib

/-!
Verification development for the spooktober-tracker Jetstream ingestion core.

Shallow embedding of the backend source:
  * change persistence          — src/backend/src/db.ts
  * main stream manager         — src/backend/src/jetstream-service.ts
  * temporary backfill manager  — src/backend/src/utils/jetstream-temp.ts

TypeScript `string | undefined` / nullable SQL columns are modelled as
`Option String`; JavaScript string truthiness is modelled explicitly; the
database tables are modelled as in-memory lists manipulated only by the
embedded operations.
-/

set_option maxHeartbeats 1000000

namespace Spooktober

/-- Candidate change payload (shared/types.ts `SubmitChangeRequest`).
Optional TS fields become `Option String`; `?? null` normalisation in db.ts
maps `undefined` to SQL NULL, i.e. `none`. -/
structure SubmitChangeRequest where
  did : String
  handle : Option String := none
  old_handle : Option String := none
  new_handle : Option String := none
  old_display_name : Option String := none
  new_display_name : Option String := none
  old_avatar : Option String := none
  new_avatar : Option String := none
deriving Repr, DecidableEq

/-- Row of the `profile_changes` table (db.ts `ProfileChangeRow`, sans timestamps). -/
structure ProfileChangeRow where
  id : Nat
  did : String
  handle : Option String
  old_handle : Option String
  new_handle : Option String
  old_display_name : Option String
  new_display_name : Option String
  old_avatar : Option String
  new_avatar : Option String
  change_type : String
deriving Repr, DecidableEq

/-- JavaScript truthiness of an optional string: `undefined`/`null` and `""` are falsy. -/
def strTruthy : Option String → Bool
  | none => false
  | some s => !s.isEmpty

/-- db.ts `getChangeType`: classify a candidate by which fields are present.
`hasHandleChange` is JS truthiness of `old_handle && new_handle`;
`hasProfileChange` is `!== undefined` on the four profile fields. -/
def getChangeType (change : SubmitChangeRequest) : String :=
  let hasHandleChange := strTruthy change.old_handle && strTruthy change.new_handle
  let hasProfileChange :=
    change.old_display_name.isSome || change.new_display_name.isSome ||
    change.old_avatar.isSome || change.new_avatar.isSome
  if hasHandleChange && hasProfileChange then "combined"
  else if hasHandleChange then "handle"
  else "profile"

/-- The duplicate predicate of db.ts `insertChange` / `isDuplicateChange`:
`did = $1` plus `IS NOT DISTINCT FROM` on the six old/new columns
(null-equal semantics: `Option` equality makes two `none`s match). -/
def matchesDuplicate (row : ProfileChangeRow) (change : SubmitChangeRequest) : Bool :=
  row.did == change.did &&
  row.old_display_name == change.old_display_name &&
  row.new_display_name == change.new_display_name &&
  row.old_avatar == change.old_avatar &&
  row.new_avatar == change.new_avatar &&
  row.old_handle == change.old_handle &&
  row.new_handle == change.new_handle

/-- Database state: the `profile_changes` table, the `ignored_users` table
(as its key list) and the SERIAL id sequence. -/
structure DBState where
  changes : List ProfileChangeRow
  ignored : List String
  nextId : Nat
deriving Repr, DecidableEq

/-- The duplicate lookup (`SELECT ... LIMIT 1`): first matching row, if any. -/
def findDuplicate (db : DBState) (change : SubmitChangeRequest) : Option ProfileChangeRow :=
  db.changes.find? (fun row => matchesDuplicate row change)

/-- Result of db.ts `insertChange`: `null` when ignored, the stored duplicate
row, or the freshly inserted row. -/
inductive InsertOutcome where
  | ignored
  | duplicate (row : ProfileChangeRow)
  | inserted (row : ProfileChangeRow)
deriving Repr, DecidableEq

/-- The row built by the INSERT statement of db.ts `insertChange`. -/
def mkChangeRow (db : DBState) (change : SubmitChangeRequest) : ProfileChangeRow :=
  { id := db.nextId
    did := change.did
    handle := change.handle
    old_handle := change.old_handle
    new_handle := change.new_handle
    old_display_name := change.old_display_name
    new_display_name := change.new_display_name
    old_avatar := change.old_avatar
    new_avatar := change.new_avatar
    change_type := getChangeType change }

/-- db.ts `insertChange`: ignore-list check, then null-safe duplicate check,
then insert with computed `change_type`. -/
def insertChange (db : DBState) (change : SubmitChangeRequest) : DBState × InsertOutcome :=
  if db.ignored.contains change.did then
    (db, InsertOutcome.ignored)
  else
    match findDuplicate db change with
    | some row => (db, InsertOutcome.duplicate row)
    | none =>
        ({ db with
            changes := db.changes ++ [mkChangeRow db change]
            nextId := db.nextId + 1 },
         InsertOutcome.inserted (mkChangeRow db change))

/-- db.ts `addIgnoredUser`: one transaction inserting the DID into
`ignored_users` (ON CONFLICT DO NOTHING) and deleting all of its
`profile_changes` rows. -/
def addIgnoredUser (db : DBState) (did : String) : DBState :=
  { db with
    ignored := if db.ignored.contains did then db.ignored else db.ignored ++ [did]
    changes := db.changes.filter (fun row => !(row.did == did)) }

/-- db.ts `removeIgnoredUser`: delete the DID from `ignored_users`. -/
def removeIgnoredUser (db : DBState) (did : String) : DBState :=
  { db with ignored := db.ignored.filter (fun d => !(d == did)) }

/-- The operations of the backend that write `profile_changes` or `ignored_users`. -/
inductive DBOp where
  | insert (change : SubmitChangeRequest)
  | addIgnored (did : String)
  | removeIgnored (did : String)
deriving Repr, DecidableEq

/-- Apply one database operation. -/
def applyDBOp (db : DBState) : DBOp → DBState
  | DBOp.insert change => (insertChange db change).1
  | DBOp.addIgnored did => addIgnoredUser db did
  | DBOp.removeIgnored did => removeIgnoredUser db did

/-- Freshly initialised database (empty tables, SERIAL starts at 1). -/
def initDBState : DBState := { changes := [], ignored := [], nextId := 1 }

/-- Run a sequence of database operations from the initial state. -/
def runDBOps (ops : List DBOp) : DBState := ops.foldl applyDBOp initDBState

/-- Invariant of §8.2: no `profile_changes` row carries an ignored DID. -/
def ignoredInvariant (db : DBState) : Prop :=
  ∀ did ∈ db.ignored, ∀ row ∈ db.changes, row.did ≠ did

/-- Spec-worded predicate (§4.C): a handle transition means `old_handle` and
`new_handle` are both non-empty. -/
def specHasHandleTransition (change : SubmitChangeRequest) : Bool :=
  (match change.old_handle with
   | some s => !s.isEmpty
   | none => false) &&
  (match change.new_handle with
   | some s => !s.isEmpty
   | none => false)

/-- Spec-worded predicate (§4.C): a profile-field transition means any of the
old/new display-name or avatar fields is present. -/
def specHasProfileTransition (change : SubmitChangeRequest) : Bool :=
  change.old_display_name.isSome || change.new_display_name.isSome ||
  change.old_avatar.isSome || change.new_avatar.isSome

/-- Record payload of a Jetstream commit (profile fields or follow subject),
following the `JetstreamEvent` interface of jetstream-service.ts. -/
structure CommitRecord where
  displayName : Option String := none
  avatarLink : Option String := none
  subject : Option String := none
deriving Repr, DecidableEq

/-- Commit payload of a Jetstream event. -/
structure CommitData where
  operation : String
  collection : String
  rkey : Option String := none
  record : Option CommitRecord := none
deriving Repr, DecidableEq

/-- Decoded upstream event (`JetstreamEvent` interface): kind, actor DID,
microsecond cursor, optional commit payload. -/
structure JetstreamEvent where
  kind : String
  did : String
  time_us : Int
  commit : Option CommitData := none
deriving Repr, DecidableEq

/-- Jetstream's wantedDids limit (jetstream-service.ts `MAX_WANTED_DIDS`). -/
def MAX_WANTED_DIDS : Nat := 10000

/-- Payload of the subscriber-sourced options message. -/
structure OptionsPayload where
  wantedCollections : List String
  wantedDids : List String
  maxMessageSizeBytes : Nat
deriving Repr, DecidableEq

/-- The options message sent after the requireHello handshake. -/
structure OptionsUpdateMessage where
  type : String
  payload : OptionsPayload
deriving Repr, DecidableEq

/-- jetstream-service.ts `buildOptionsUpdateMessage` (main stream): caps the
DID list at `MAX_WANTED_DIDS` via `slice(0, maxDids)`; the second component
records whether the over-limit warning was logged. -/
def buildOptionsUpdateMessage (dids : List String) : OptionsUpdateMessage × Bool :=
  let maxDids := min dids.length MAX_WANTED_DIDS
  let warned := decide (dids.length > MAX_WANTED_DIDS)
  ({ type := "options_update"
     payload :=
      { wantedCollections := ["app.bsky.actor.profile", "app.bsky.graph.follow"]
        wantedDids := dids.take maxDids
        maxMessageSizeBytes := 0 } },
   warned)

/-- jetstream-temp.ts `buildOptionsUpdateMessage` (temporary streams): sends
the full DID list with no cap and no warning. -/
def tempBuildOptionsUpdateMessage (dids : List String) : OptionsUpdateMessage :=
  { type := "options_update"
    payload :=
      { wantedCollections := ["app.bsky.actor.profile", "app.bsky.graph.follow"]
        wantedDids := dids
        maxMessageSizeBytes := 0 } }

/-- A list with one DID more than the Jetstream cap. -/
def didsOverCap : List String :=
  (List.range (MAX_WANTED_DIDS + 1)).map (fun n => "did:plc:" ++ toString n)

/-- JavaScript truthiness of an optional number: missing and `0` are falsy. -/
def intTruthy : Option Int → Bool
  | none => false
  | some n => n != 0

/-- Mutable fields of `JetstreamService` used by the claims. The `ws` field
mirrors `this.ws`: `none` when the reference is null, `some true` while the
underlying socket is open, `some false` after the socket emitted 'close' while
the reference is still held for the scheduled reconnect. -/
structure MainStreamState where
  shouldRun : Bool := true
  ws : Option Bool := none
  currentDIDs : List String := []
  lastCursor : Option Int := none
  startTimeMs : Option Int := none
  isInActualBackfill : Bool := false
  backfillLagSeconds : Option Int := none
  cursorAtStop : Option Int := none
deriving Repr, DecidableEq

/-- Fresh `JetstreamService` instance. -/
def initMainStreamState : MainStreamState := {}

/-- JetstreamService.start(cursor?): the synchronous state updates — set
shouldRun and startTime, seed lastCursor, and run backfill detection:
`timeDiff = now − cursor/1000` in milliseconds (exact rational arithmetic;
the division is exact at the 60 s boundary) and
`isInActualBackfill := timeDiff > 60000`. -/
def mainStart (s : MainStreamState) (nowMs : Int) (cursorUs : Option Int) :
    MainStreamState :=
  let s1 := { s with shouldRun := true, startTimeMs := some nowMs }
  match cursorUs with
  | none => s1
  | some cursor =>
      let timeDiff : ℚ := (nowMs : ℚ) - (cursor : ℚ) / 1000
      let inBackfill : Bool := decide (timeDiff > 60000)
      { s1 with
        lastCursor := some cursor
        isInActualBackfill := inBackfill
        backfillLagSeconds :=
          if inBackfill then some ⌊timeDiff / 1000⌋ else s1.backfillLagSeconds }

/-- Retry budget of the persistence wrapper (`DB_RETRY_ATTEMPTS`). -/
def DB_RETRY_ATTEMPTS : Nat := 3

/-- `withDBRetry`: the wrapped operation succeeds iff one of its first
`DB_RETRY_ATTEMPTS` attempts succeeds; otherwise the last error is rethrown. -/
def withDBRetrySucceeds (attempts : List Bool) : Bool :=
  (attempts.take DB_RETRY_ATTEMPTS).any id

/-- Per-event oracle: attempt outcomes of the database handlers invoked by
processEvent (identity handler, profile-commit handler, follow handler). -/
structure HandlerAttempts where
  identityTries : List Bool := []
  profileTries : List Bool := []
  followTries : List Bool := []
deriving Repr, DecidableEq

/-- Whether the handler phase of JetstreamService.processEvent runs to
completion: identity events run the identity handler, commit events run the
profile-commit handler then the follow handler, all other kinds run nothing.
A retry-exhausted handler throws into the per-event catch block. -/
def mainHandlersSucceed (e : JetstreamEvent) (a : HandlerAttempts) : Bool :=
  if e.kind == "identity" then withDBRetrySucceeds a.identityTries
  else if e.kind == "commit" then
    withDBRetrySucceeds a.profileTries && withDBRetrySucceeds a.followTries
  else true

/-- JetstreamService.processEvent: only after the handlers complete does the
cursor advance to `event.time_us` and the backfill-completion check run
(`time_us/1000 ≥ startTime` clears the flag); a handler failure is caught and
leaves the state unchanged. -/
def processEventMain (s : MainStreamState) (e : JetstreamEvent) (a : HandlerAttempts) :
    MainStreamState :=
  if mainHandlersSucceed e a then
    let s1 := { s with lastCursor := some e.time_us }
    if s1.isInActualBackfill then
      match s1.startTimeMs with
      | some st =>
          if decide ((e.time_us : ℚ) / 1000 ≥ (st : ℚ)) then
            { s1 with isInActualBackfill := false, backfillLagSeconds := none }
          else s1
      | none => s1
    else s1
  else s

/-- Mutable fields of `TemporaryJetstreamService` used by the claims. -/
structure TempStreamState where
  startTimeMs : Int
  shouldRun : Bool := true
  hasStopped : Bool := false
  lastCursor : Option Int := none
  ws : Option Bool := none
deriving Repr, DecidableEq

/-- TemporaryJetstreamService.stop(): clear shouldRun, close and null the
socket, set the idempotent stop guard; the cursor fields are untouched. -/
def tempStop (s : TempStreamState) : TempStreamState :=
  { s with shouldRun := false, hasStopped := true, ws := none }

/-- TemporaryJetstreamService.processEvent: lastCursor advances to
`event.time_us` (when truthy) FIRST, then the catch-up check may stop the
stream (`time_us/1000 ≥ startTime`), and only then do the identity/profile/
follow handlers run; `handlersOk` records whether that final handler phase
succeeds, and its failure is caught without touching any of these fields. -/
def processEventTemp (s : TempStreamState) (e : JetstreamEvent) (handlersOk : Bool) :
    TempStreamState :=
  let s1 := if e.time_us ≠ 0 then { s with lastCursor := some e.time_us } else s
  if e.time_us ≠ 0 ∧ (e.time_us : ℚ) / 1000 ≥ (s1.startTimeMs : ℚ) then tempStop s1
  else s1

/-- Serial event loop of the main stream. -/
def runMainEvents (s : MainStreamState)
    (evs : List (JetstreamEvent × HandlerAttempts)) : MainStreamState :=
  evs.foldl (fun st p => processEventMain st p.1 p.2) s

/-- Successive lastCursor values of the main stream along an event sequence. -/
def mainCursorTrace (s : MainStreamState)
    (evs : List (JetstreamEvent × HandlerAttempts)) : List (Option Int) :=
  (evs.scanl (fun st p => processEventMain st p.1 p.2) s).map (fun st => st.lastCursor)

/-- Serial event loop of a temporary stream. -/
def runTempEvents (s : TempStreamState) (evs : List (JetstreamEvent × Bool)) :
    TempStreamState :=
  evs.foldl (fun st p => processEventTemp st p.1 p.2) s

/-- Successive lastCursor values of a temporary stream along an event sequence. -/
def tempCursorTrace (s : TempStreamState) (evs : List (JetstreamEvent × Bool)) :
    List (Option Int) :=
  (evs.scanl (fun st p => processEventTemp st p.1 p.2) s).map (fun st => st.lastCursor)

/-- Order on optional cursors: no-cursor precedes everything, values compare
by `≤`, and a present cursor never goes back to absent. -/
def cursorLEb : Option Int → Option Int → Bool
  | none, _ => true
  | some _, none => false
  | some x, some y => decide (x ≤ y)

/-- Propositional form of `cursorLEb`. -/
def cursorLE (a b : Option Int) : Prop := cursorLEb a b = true

instance (a b : Option Int) : Decidable (cursorLE a b) :=
  inferInstanceAs (Decidable (cursorLEb a b = true))

/-- JetstreamService.connect(): with no DIDs nothing happens; otherwise a
fresh WebSocket is created and stored, and when starting live (falsy
lastCursor) the backfill flags are reset. -/
def mainConnect (s : MainStreamState) : MainStreamState :=
  if s.currentDIDs.length = 0 then s
  else if intTruthy s.lastCursor then { s with ws := some true }
  else { s with ws := some true, isInActualBackfill := false, backfillLagSeconds := none }

/-- The main stream's socket 'close' handler: `this.ws` is NOT cleared — the
underlying socket is closed and a reconnect is scheduled while the old
reference is still held. -/
def mainOnSocketClose (s : MainStreamState) : MainStreamState :=
  { s with ws := s.ws.map (fun _ => false) }

/-- JetstreamService.stop(): persist the stop cursor, clear cursor/start/
backfill state, cancel the reconnect timer and null the socket. -/
def mainStop (s : MainStreamState) : MainStreamState :=
  { s with
    shouldRun := false
    cursorAtStop := s.lastCursor
    lastCursor := none
    startTimeMs := none
    isInActualBackfill := false
    backfillLagSeconds := none
    ws := none }

/-- JetstreamService.isRunningWithCursor(): non-null cursor and a start time
more than 30 s in the past. -/
def isRunningWithCursor (s : MainStreamState) (nowMs : Int) : Bool :=
  s.lastCursor.isSome &&
  (match s.startTimeMs with
   | some st => decide (nowMs - st > 30000)
   | none => false)

/-- Snapshot returned by getMainStreamStatus. -/
structure MainStreamStatus where
  isRunning : Bool
  monitoredDIDs : Nat
  hasValidCursor : Bool
deriving Repr, DecidableEq

/-- JetstreamService.getMainStreamStatus(): `isRunning` is
`shouldRun && ws !== null && currentDIDs.length > 0`; `hasValidCursor`
additionally requires isRunningWithCursor(). -/
def getMainStreamStatus (s : MainStreamState) (nowMs : Int) : MainStreamStatus :=
  let isRunning := s.shouldRun && s.ws.isSome && decide (0 < s.currentDIDs.length)
  { isRunning := isRunning
    monitoredDIDs := s.currentDIDs.length
    hasValidCursor := isRunning && isRunningWithCursor s nowMs }

/-- A started, connected main stream observed 40 s after start: one monitored
DID, an open socket, and a processed cursor. -/
def connectedMainState : MainStreamState :=
  { shouldRun := true
    ws := some true
    currentDIDs := ["did:plc:u"]
    lastCursor := some 1700000000000000
    startTimeMs := some 1700000000000
    isInActualBackfill := false
    backfillLagSeconds := none
    cursorAtStop := none }

/-- A freshly started temporary stream (24 h backfill; start time T). -/
def tempCexState : TempStreamState := { startTimeMs := 1700000000000 }

/-- A commit event from inside the backfill window (before the stream's
start time). -/
def tempCexEvent : JetstreamEvent :=
  { kind := "commit", did := "did:plc:a", time_us := 1699999000000000 }

/-- A queued startForUser request (user DID and the follow list captured at
enqueue time). -/
structure QueuedRequest where
  userDID : String
  follows : List String
deriving Repr, DecidableEq

/-- TemporaryJetstreamManager state: keys of the activeStreams map (insertion
order) and the FIFO wait queue. -/
structure ManagerState where
  activeStreams : List String
  queue : List QueuedRequest
deriving Repr, DecidableEq

/-- Fresh manager. -/
def initManagerState : ManagerState := { activeStreams := [], queue := [] }

/-- Map.set on the key list: append the key when absent. -/
def insertKey (keys : List String) (k : String) : List String :=
  if keys.contains k then keys else keys ++ [k]

/-- Result of a startForUser call. -/
inductive StartOutcome where
  | alreadyActive
  | queued
  | started
  | skippedNoFollows
deriving Repr, DecidableEq

/-- TemporaryJetstreamManager.startStreamForUser: filter the follow list
against the ignored table; when nothing remains, mark the backfill started
and completed back-to-back and start no stream; otherwise register the user
in the active table and start the stream. -/
def startStreamForUser (ignored : List String) (s : ManagerState) (userDID : String)
    (follows : List String) : ManagerState × StartOutcome :=
  let filtered := follows.filter (fun d => !(ignored.contains d))
  if filtered.length = 0 then (s, StartOutcome.skippedNoFollows)
  else ({ s with activeStreams := insertKey s.activeStreams userDID },
        StartOutcome.started)

/-- TemporaryJetstreamManager.startForUser: reject an already-active user,
enqueue at capacity, otherwise start immediately. -/
def startForUser (maxStreams : Nat) (ignored : List String) (s : ManagerState)
    (userDID : String) (follows : List String) : ManagerState × StartOutcome :=
  if s.activeStreams.contains userDID then (s, StartOutcome.alreadyActive)
  else if maxStreams ≤ s.activeStreams.length then
    ({ s with queue := s.queue ++ [{ userDID := userDID, follows := follows }] },
     StartOutcome.queued)
  else startStreamForUser ignored s userDID follows

/-- TemporaryJetstreamManager.processQueue: promote at most one queued
request when below capacity. -/
def processQueue (maxStreams : Nat) (ignored : List String) (s : ManagerState) :
    ManagerState :=
  match s.queue with
  | [] => s
  | next :: rest =>
      if maxStreams ≤ s.activeStreams.length then s
      else (startStreamForUser ignored { s with queue := rest }
              next.userDID next.follows).1

/-- TemporaryJetstreamManager.finalizeStream: remove the user from the active
table, record backfill completion, then run processQueue. -/
def finalizeStream (maxStreams : Nat) (ignored : List String) (s : ManagerState)
    (userDID : String) : ManagerState :=
  if s.activeStreams.contains userDID then
    processQueue maxStreams ignored
      { s with activeStreams := s.activeStreams.filter (fun u => !(u == userDID)) }
  else s

/-- Completed manager operations: a startForUser call and a stream stop with
its finalization (each capturing the ignored table read during the call). -/
inductive ManagerOp where
  | start (ignored : List String) (userDID : String) (follows : List String)
  | finalize (ignored : List String) (userDID : String)
deriving Repr, DecidableEq

/-- Apply one manager operation. -/
def applyManagerOp (maxStreams : Nat) (s : ManagerState) : ManagerOp → ManagerState
  | ManagerOp.start ignored u follows => (startForUser maxStreams ignored s u follows).1
  | ManagerOp.finalize ignored u => finalizeStream maxStreams ignored s u

/-- Run a sequence of manager operations from the fresh manager. -/
def runManagerOps (maxStreams : Nat) (ops : List ManagerOp) : ManagerState :=
  ops.foldl (applyManagerOp maxStreams) initManagerState

/-- jetstream-service.ts wires `maxConcurrentTempStreams := 50`. -/
def MAX_CONCURRENT_TEMP_STREAMS : Nat := 50

/-- Counterexample trace for the pool invariant: fill all 50 slots, enqueue a
user whose entire follow list is on the ignore list, enqueue one more user,
then one active stream stops. -/
def managerCexOps : List ManagerOp :=
  ((List.range MAX_CONCURRENT_TEMP_STREAMS).map
    (fun i => ManagerOp.start ["did:plc:bad"] ("did:plc:u" ++ toString i) ["did:plc:f"]))
  ++ [ManagerOp.start ["did:plc:bad"] "did:plc:q1" ["did:plc:bad"],
      ManagerOp.start ["did:plc:bad"] "did:plc:q2" ["did:plc:f"],
      ManagerOp.finalize ["did:plc:bad"] "did:plc:u0"]

/-- Environment oracle for one handleFollowEvent call: the results of the
database and resolver calls the handler makes; `allMonitoredDIDs` is the
table content at the post-removal query in the delete branch. -/
structure FollowEnv where
  hasMonitoring : Bool
  resolve : String → Option String
  existingFollowDIDs : List String
  followDIDByRkey : Option String
  allMonitoredDIDs : List String

/-- Externally visible effects of one handleFollowEvent call. -/
structure FollowEffects where
  upsertedFollow : Option (String × String × String × Option String) := none
  removedByRkey : Option (String × String) := none
  reloadRequested : Bool := false
  warned : Bool := false
deriving Repr, DecidableEq

/-- jetstream-service.ts `handleFollowEvent`. `fromTempStream` mirrors a
present logPrefix (temporary streams always pass one); `isInBackfill` is the
main stream's backfill flag. -/
def handleFollowEvent (e : JetstreamEvent) (env : FollowEnv)
    (fromTempStream : Bool) (isInBackfill : Bool) : FollowEffects :=
  if e.kind != "commit" then {}
  else
    match e.commit with
    | none => {}
    | some commit =>
        if commit.collection != "app.bsky.graph.follow" then {}
        else if commit.operation != "create" && commit.operation != "delete" then {}
        else if !env.hasMonitoring then {}
        else if isInBackfill && !fromTempStream then {}
        else if commit.operation == "create" then
          match commit.record with
          | none => {}
          | some record =>
              match record.subject with
              | none => {}
              | some subject =>
                  if subject.isEmpty then {}
                  else
                    match env.resolve subject with
                    | none => { warned := true }
                    | some followedHandle =>
                        if env.existingFollowDIDs.contains subject then {}
                        else
                          { upsertedFollow :=
                              some (e.did, subject, followedHandle, commit.rkey)
                            reloadRequested := true }
        else
          match commit.rkey with
          | none => { warned := true }
          | some rk =>
              if rk.isEmpty then { warned := true }
              else
                match env.followDIDByRkey with
                | none => {}
                | some removedDID =>
                    { removedByRkey := some (e.did, rk)
                      reloadRequested := !(env.allMonitoredDIDs.contains removedDID) }

/- ===================== theorems ===================== -/

/-- Helper: the freshly inserted row matches its own candidate. -/
theorem matchesDuplicate_mkChangeRow (db : DBState) (change : SubmitChangeRequest) :
    matchesDuplicate (mkChangeRow db change) change = true := by
  simp [matchesDuplicate, mkChangeRow]

/-- Helper: a successful non-duplicate insert returns the built row and appends it. -/
theorem insertChange_not_ignored_not_dup (db : DBState) (change : SubmitChangeRequest)
    (hig : db.ignored.contains change.did = false)
    (hdup : findDuplicate db change = none) :
    insertChange db change =
      ({ db with
          changes := db.changes ++ [mkChangeRow db change]
          nextId := db.nextId + 1 },
       InsertOutcome.inserted (mkChangeRow db change)) := by
  have hmem : change.did ∉ db.ignored := by simpa using hig
  simp [insertChange, hmem, hdup]

/-- Helper: when a duplicate row exists, `insertChange` returns it unchanged. -/
theorem insertChange_found_dup (db : DBState) (change : SubmitChangeRequest)
    (row : ProfileChangeRow)
    (hig : db.ignored.contains change.did = false)
    (hdup : findDuplicate db change = some row) :
    insertChange db change = (db, InsertOutcome.duplicate row) := by
  have hmem : change.did ∉ db.ignored := by simpa using hig
  simp [insertChange, hmem, hdup]

/-- C2: `insertChange` is idempotent. Starting from a state where the
candidate's DID is not ignored and no row matches it under the null-equal
seven-field duplicate predicate, the first call inserts exactly one matching
row and the second call leaves the table unchanged and returns the row stored
by the first call. -/
theorem insertChange_idempotent (db : DBState) (change : SubmitChangeRequest)
    (hig : db.ignored.contains change.did = false)
    (hdup : findDuplicate db change = none) :
    (insertChange db change).2 = InsertOutcome.inserted (mkChangeRow db change) ∧
    (insertChange (insertChange db change).1 change).1 = (insertChange db change).1 ∧
    (insertChange (insertChange db change).1 change).2
      = InsertOutcome.duplicate (mkChangeRow db change) ∧
    ((insertChange db change).1.changes.filter
        (fun row => matchesDuplicate row change)).length = 1 := by
  have h1 := insertChange_not_ignored_not_dup db change hig hdup
  have hnomatch : ∀ row ∈ db.changes, ¬ matchesDuplicate row change := by
    simpa [findDuplicate, List.find?_eq_none] using hdup
  have hdup2 : findDuplicate (insertChange db change).1 change
      = some (mkChangeRow db change) := by
    rw [h1]
    simp [findDuplicate, List.find?_append,
      List.find?_eq_none.mpr hnomatch, matchesDuplicate_mkChangeRow]
  have hig2 : (insertChange db change).1.ignored.contains change.did = false := by
    rw [h1]; exact hig
  have h2 := insertChange_found_dup (insertChange db change).1 change
    (mkChangeRow db change) hig2 hdup2
  have hfilter : db.changes.filter (fun row => matchesDuplicate row change) = [] :=
    List.filter_eq_nil_iff.mpr hnomatch
  refine ⟨by rw [h1], by rw [h2], by rw [h2], ?_⟩
  rw [h1]
  simp [hfilter, matchesDuplicate_mkChangeRow]

/-- C2 witness: a concrete handle change inserted twice into the empty database. -/
theorem insertChange_idempotent_witness :
    (insertChange initDBState
        { did := "did:plc:a", old_handle := some "old.alice.example",
          new_handle := some "new.alice.example" }).2
      = InsertOutcome.inserted (mkChangeRow initDBState
        { did := "did:plc:a", old_handle := some "old.alice.example",
          new_handle := some "new.alice.example" }) ∧
    (insertChange (insertChange initDBState
        { did := "did:plc:a", old_handle := some "old.alice.example",
          new_handle := some "new.alice.example" }).1
        { did := "did:plc:a", old_handle := some "old.alice.example",
          new_handle := some "new.alice.example" }).1
      = (insertChange initDBState
        { did := "did:plc:a", old_handle := some "old.alice.example",
          new_handle := some "new.alice.example" }).1 ∧
    (insertChange (insertChange initDBState
        { did := "did:plc:a", old_handle := some "old.alice.example",
          new_handle := some "new.alice.example" }).1
        { did := "did:plc:a", old_handle := some "old.alice.example",
          new_handle := some "new.alice.example" }).2
      = InsertOutcome.duplicate (mkChangeRow initDBState
        { did := "did:plc:a", old_handle := some "old.alice.example",
          new_handle := some "new.alice.example" }) ∧
    ((insertChange initDBState
        { did := "did:plc:a", old_handle := some "old.alice.example",
          new_handle := some "new.alice.example" }).1.changes.filter
        (fun row => matchesDuplicate row
          { did := "did:plc:a", old_handle := some "old.alice.example",
            new_handle := some "new.alice.example" })).length = 1 :=
  insertChange_idempotent initDBState
    { did := "did:plc:a", old_handle := some "old.alice.example",
      new_handle := some "new.alice.example" }
    (by decide) (by decide)

/-- Helper: every single database operation preserves the ignored-DID invariant. -/
theorem ignoredInvariant_step (db : DBState) (op : DBOp) (h : ignoredInvariant db) :
    ignoredInvariant (applyDBOp db op) := by
  cases op with
  | insert change =>
    by_cases hig : change.did ∈ db.ignored
    · simpa [applyDBOp, insertChange, hig] using h
    · cases hdup : findDuplicate db change with
      | some row => simpa [applyDBOp, insertChange, hig, hdup] using h
      | none =>
        intro did hdid row hrow
        have hstep := insertChange_not_ignored_not_dup db change (by simpa using hig) hdup
        simp only [applyDBOp, hstep] at hrow hdid
        rcases List.mem_append.mp hrow with hrow | hrow
        · exact h did hdid row hrow
        · have hr : row = mkChangeRow db change := by simpa using hrow
          subst hr
          have hne : change.did ≠ did := fun heq => hig (by rwa [heq])
          simpa [mkChangeRow] using hne
  | addIgnored d =>
    intro did hdid row hrow
    simp only [applyDBOp, addIgnoredUser] at hrow hdid
    have hrowmem := List.mem_filter.mp hrow
    by_cases hdd : did = d
    · subst hdd
      simpa using hrowmem.2
    · have hdidold : did ∈ db.ignored := by
        by_cases hc : d ∈ db.ignored
        · rwa [if_pos (by simpa using hc)] at hdid
        · rw [if_neg (by simpa using hc)] at hdid
          rcases List.mem_append.mp hdid with hm | hm
          · exact hm
          · exact absurd (by simpa using hm) hdd
      exact h did hdidold row hrowmem.1
  | removeIgnored d =>
    intro did hdid row hrow
    simp only [applyDBOp, removeIgnoredUser] at hdid
    exact h did (List.mem_filter.mp hdid).1 row hrow

/-- Helper: the invariant is preserved along any operation sequence. -/
theorem ignoredInvariant_foldl (ops : List DBOp) :
    ∀ db : DBState, ignoredInvariant db → ignoredInvariant (ops.foldl applyDBOp db) := by
  induction ops with
  | nil => intro db h; simpa using h
  | cons op rest ih =>
    intro db h
    exact ih (applyDBOp db op) (ignoredInvariant_step db op h)

/-- C3: in every database state reachable by the embedded write operations,
no `profile_changes` row carries an ignored DID; `addIgnoredUser` removes all
of the DID's rows and records the DID in the same step; and `insertChange`
for an ignored DID returns `null` without touching the state. -/
theorem ignored_users_have_no_changes :
    (∀ ops : List DBOp, ignoredInvariant (runDBOps ops)) ∧
    (∀ (db : DBState) (did : String),
      (addIgnoredUser db did).changes.all (fun row => !(row.did == did)) = true ∧
      did ∈ (addIgnoredUser db did).ignored) ∧
    (∀ (db : DBState) (change : SubmitChangeRequest),
      db.ignored.contains change.did = true →
      insertChange db change = (db, InsertOutcome.ignored)) := by
  refine ⟨?_, ?_, ?_⟩
  · intro ops
    exact ignoredInvariant_foldl ops initDBState (by intro did h; simp [initDBState] at h)
  · intro db did
    constructor
    · simp only [addIgnoredUser, List.all_eq_true]
      intro row hrow
      simpa using (List.mem_filter.mp hrow).2
    · by_cases hc : did ∈ db.ignored
      · simp only [addIgnoredUser]
        rw [if_pos (by simpa using hc)]
        exact hc
      · simp only [addIgnoredUser]
        rw [if_neg (by simpa using hc)]
        exact List.mem_append.mpr (Or.inr (by simp))
  · intro db change hig
    have hmem : change.did ∈ db.ignored := by simpa using hig
    simp [insertChange, hmem]

/-- C3 witness: inserting for an already-ignored DID leaves the state unchanged. -/
theorem ignored_users_have_no_changes_witness :
    insertChange { changes := [], ignored := ["did:plc:x"], nextId := 1 }
        { did := "did:plc:x" }
      = ({ changes := [], ignored := ["did:plc:x"], nextId := 1 },
         InsertOutcome.ignored) :=
  ignored_users_have_no_changes.2.2
    { changes := [], ignored := ["did:plc:x"], nextId := 1 }
    { did := "did:plc:x" } (by decide)

/-- C7: every row actually inserted by `insertChange` is classified exactly as
the spec describes: `combined` when both a handle transition (both handles
non-empty) and a profile-field transition (any display-name/avatar field
present) exist, `handle` when only the handle transition exists, and
`profile` otherwise. -/
theorem insertChange_changeType (db : DBState) (change : SubmitChangeRequest)
    (row : ProfileChangeRow)
    (h : (insertChange db change).2 = InsertOutcome.inserted row) :
    row.change_type =
      if specHasHandleTransition change && specHasProfileTransition change then "combined"
      else if specHasHandleTransition change then "handle"
      else "profile" := by
  have hrow : row = mkChangeRow db change := by
    by_cases hig : change.did ∈ db.ignored
    · simp [insertChange, hig] at h
    · cases hdup : findDuplicate db change with
      | some r => simp [insertChange, hig, hdup] at h
      | none =>
        have hstep := insertChange_not_ignored_not_dup db change (by simpa using hig) hdup
        rw [hstep] at h
        simpa using h.symm
  subst hrow
  show getChangeType change = _
  have hh : specHasHandleTransition change
      = (strTruthy change.old_handle && strTruthy change.new_handle) := by
    cases ho : change.old_handle <;> cases hn : change.new_handle <;>
      simp [specHasHandleTransition, strTruthy, ho, hn]
  simp only [getChangeType, specHasProfileTransition, hh]

/-- C7 witness: a combined handle + display-name change is classified `combined`. -/
theorem insertChange_changeType_witness :
    (mkChangeRow initDBState
        { did := "did:plc:a", old_handle := some "a.example",
          new_handle := some "b.example", old_display_name := some "A",
          new_display_name := some "B" }).change_type =
      if specHasHandleTransition
          { did := "did:plc:a", old_handle := some "a.example",
            new_handle := some "b.example", old_display_name := some "A",
            new_display_name := some "B" } &&
         specHasProfileTransition
          { did := "did:plc:a", old_handle := some "a.example",
            new_handle := some "b.example", old_display_name := some "A",
            new_display_name := some "B" }
      then "combined"
      else if specHasHandleTransition
          { did := "did:plc:a", old_handle := some "a.example",
            new_handle := some "b.example", old_display_name := some "A",
            new_display_name := some "B" }
      then "handle"
      else "profile" :=
  insertChange_changeType initDBState
    { did := "did:plc:a", old_handle := some "a.example",
      new_handle := some "b.example", old_display_name := some "A",
      new_display_name := some "B" }
    (mkChangeRow initDBState
      { did := "did:plc:a", old_handle := some "a.example",
        new_handle := some "b.example", old_display_name := some "A",
        new_display_name := some "B" })
    (by decide)

/-- C5 counterexample: the temporary-stream options builder applied to 10001
DIDs produces a message listing all 10001 wanted DIDs, refuting the claim
that every subscribe-options message lists at most 10000. -/
theorem tempOptions_exceed_cap :
    ¬ ((tempBuildOptionsUpdateMessage didsOverCap).payload.wantedDids.length
        ≤ MAX_WANTED_DIDS) := by
  simp [tempBuildOptionsUpdateMessage, didsOverCap, MAX_WANTED_DIDS]

/-- C5 amended: the MAIN stream's options builder caps the wanted-DID list at
10000, sends the first 10000 and warns exactly when the supplied list is
longer; the TEMPORARY stream's builder sends the supplied list unchanged,
with no cap and no warning. -/
theorem optionsMessage_cap (dids : List String) :
    (buildOptionsUpdateMessage dids).1.payload.wantedDids.length ≤ MAX_WANTED_DIDS ∧
    (buildOptionsUpdateMessage dids).1.payload.wantedDids = dids.take MAX_WANTED_DIDS ∧
    ((buildOptionsUpdateMessage dids).2 = true ↔ MAX_WANTED_DIDS < dids.length) ∧
    (tempBuildOptionsUpdateMessage dids).payload.wantedDids = dids := by
  refine ⟨?_, ?_, ?_, rfl⟩
  · simp [buildOptionsUpdateMessage]
  · rcases le_total dids.length MAX_WANTED_DIDS with h | h
    · simp [buildOptionsUpdateMessage, min_eq_left h, List.take_of_length_le h,
        List.take_length]
    · simp [buildOptionsUpdateMessage, min_eq_right h]
  · simp [buildOptionsUpdateMessage]

/-- C4 counterexample: start() with a cursor exactly 60 s in the past
(now = 1700000000000 ms, cursor = (now − 60000)·1000 µs) leaves
isInActualBackfill = false, refuting the claim that it is set to true. -/
theorem start_at_exact_60s_not_backfill :
    (mainStart initMainStreamState 1700000000000
        (some ((1700000000000 - 60000) * 1000))).isInActualBackfill = false := by
  norm_num [mainStart]

/-- Helper: the millisecond cursor-age test of start() in exact integer form. -/
theorem backfill_age_iff (nowMs cursorUs : Int) :
    ((nowMs : ℚ) - (cursorUs : ℚ) / 1000 > 60000) ↔
      60000000 < 1000 * nowMs - cursorUs := by
  have h1 : (nowMs : ℚ) - (cursorUs : ℚ) / 1000
      = ((1000 * nowMs - cursorUs : Int) : ℚ) / 1000 := by
    push_cast
    ring
  rw [gt_iff_lt, h1, lt_div_iff₀ (by norm_num : (0 : ℚ) < 1000)]
  norm_cast

/-- C4 amended: start(cursor) enables backfill mode iff the cursor is
STRICTLY more than 60 s in the past (1000·now − cursor > 60000000 µs);
at exactly 60 s the flag stays false. -/
theorem start_backfill_strict (nowMs cursorUs : Int) :
    ((mainStart initMainStreamState nowMs (some cursorUs)).isInActualBackfill = true
      ↔ 60000000 < 1000 * nowMs - cursorUs) ∧
    (1000 * nowMs - cursorUs = 60000000 →
      (mainStart initMainStreamState nowMs (some cursorUs)).isInActualBackfill
        = false) := by
  have hflag : (mainStart initMainStreamState nowMs (some cursorUs)).isInActualBackfill
      = decide ((nowMs : ℚ) - (cursorUs : ℚ) / 1000 > 60000) := rfl
  constructor
  · rw [hflag, decide_eq_true_eq]
    exact backfill_age_iff nowMs cursorUs
  · intro h
    rw [hflag, decide_eq_false_iff_not]
    rw [backfill_age_iff nowMs cursorUs]
    omega

/-- C4 witness: a cursor lagging 60.001 s enables backfill mode. -/
theorem start_backfill_strict_witness :
    (mainStart initMainStreamState 1700000000000
        (some ((1700000000000 - 60001) * 1000))).isInActualBackfill = true :=
  ((start_backfill_strict 1700000000000 ((1700000000000 - 60001) * 1000)).1).mpr
    (by norm_num)

/-- C1 counterexample: a temporary stream advances lastCursor before its
handlers run — with the handler phase failing, the cursor still moves from
`none` to the event's time, so the event would not be re-delivered. -/
theorem tempCursor_advances_despite_failure :
    (processEventTemp tempCexState tempCexEvent false).lastCursor
        = some 1699999000000000 ∧
    tempCexState.lastCursor = none := by
  constructor
  · norm_num [processEventTemp, tempCexState, tempCexEvent, tempStop]
  · rfl

/-- C1 amended: the MAIN stream advances lastCursor only after its handlers
complete (a retry-exhausted handler leaves the whole state unchanged, so the
event is re-delivered after reconnect); a TEMPORARY stream instead advances
lastCursor before dispatching its handlers — for every truthy time_us,
regardless of handler success. -/
theorem cursor_advance_vs_handlers (s : MainStreamState) (e : JetstreamEvent)
    (a : HandlerAttempts) (ts : TempStreamState) (ok : Bool) :
    (mainHandlersSucceed e a = false → processEventMain s e a = s) ∧
    (mainHandlersSucceed e a = true →
      (processEventMain s e a).lastCursor = some e.time_us) ∧
    ((processEventTemp ts e ok).lastCursor
      = if e.time_us ≠ 0 then some e.time_us else ts.lastCursor) := by
  refine ⟨?_, ?_, ?_⟩
  · intro h
    simp [processEventMain, h]
  · intro h
    simp only [processEventMain, h, if_true]
    cases hst : s.startTimeMs <;> by_cases hb : s.isInActualBackfill <;>
      simp [hst, hb] <;> split <;> rfl
  · by_cases ht : e.time_us = 0
    · simp [processEventTemp, ht, tempStop]
    · simp only [processEventTemp, ne_eq, ht, not_false_eq_true, if_true]
      split <;> simp [tempStop, ht]

/-- C1 witness: concrete main-stream events — a commit whose profile handler
fails all three attempts leaves the state untouched, and one whose handlers
succeed advances the cursor to its time. -/
theorem cursor_advance_vs_handlers_witness :
    (processEventMain initMainStreamState
        { kind := "commit", did := "did:plc:a", time_us := 7 }
        { profileTries := [false, false, false] } = initMainStreamState) ∧
    ((processEventMain initMainStreamState
        { kind := "commit", did := "did:plc:a", time_us := 7 }
        { profileTries := [true], followTries := [true] }).lastCursor = some 7) :=
  ⟨(cursor_advance_vs_handlers initMainStreamState
      { kind := "commit", did := "did:plc:a", time_us := 7 }
      { profileTries := [false, false, false] } tempCexState false).1 (by decide),
   (cursor_advance_vs_handlers initMainStreamState
      { kind := "commit", did := "did:plc:a", time_us := 7 }
      { profileTries := [true], followTries := [true] } tempCexState false).2.1
     (by decide)⟩

/-- Helper: reflexivity of the cursor order. -/
theorem cursorLE_refl (a : Option Int) : cursorLE a a := by
  cases a <;> simp [cursorLE, cursorLEb]

/-- Helper: the cursor order between two present cursors. -/
theorem cursorLE_some_some {x y : Int} (h : x ≤ y) : cursorLE (some x) (some y) := by
  simp [cursorLE, cursorLEb, h]

/-- Helper: one main-stream step either keeps the cursor or sets it to the
event's time. -/
theorem processEventMain_cursor_cases (s : MainStreamState) (e : JetstreamEvent)
    (a : HandlerAttempts) :
    (processEventMain s e a).lastCursor = s.lastCursor ∨
    (processEventMain s e a).lastCursor = some e.time_us := by
  cases h : mainHandlersSucceed e a
  · left
    simp [processEventMain, h]
  · right
    simp only [processEventMain, h, if_true]
    cases hst : s.startTimeMs <;> by_cases hb : s.isInActualBackfill <;>
      simp [hst, hb] <;> split <;> rfl

/-- Helper: one temporary-stream step either keeps the cursor or sets it to
the event's time. -/
theorem processEventTemp_cursor_cases (s : TempStreamState) (e : JetstreamEvent)
    (ok : Bool) :
    (processEventTemp s e ok).lastCursor = s.lastCursor ∨
    (processEventTemp s e ok).lastCursor = some e.time_us := by
  by_cases ht : e.time_us = 0
  · left
    simp [processEventTemp, ht, tempStop]
  · right
    simp only [processEventTemp, ne_eq, ht, not_false_eq_true, if_true]
    split <;> simp [tempStop, ht]

/-- Helper: the first entry of a main-stream cursor trace is the initial cursor. -/
theorem mainCursorTrace_head (s : MainStreamState)
    (evs : List (JetstreamEvent × HandlerAttempts)) :
    (mainCursorTrace s evs).head? = some s.lastCursor := by
  cases evs <;> rfl

/-- Helper: the first entry of a temporary-stream cursor trace is the initial cursor. -/
theorem tempCursorTrace_head (s : TempStreamState)
    (evs : List (JetstreamEvent × Bool)) :
    (tempCursorTrace s evs).head? = some s.lastCursor := by
  cases evs <;> rfl

/-- Helper: main-stream cursor traces are non-decreasing for sorted inputs. -/
theorem mainCursorTrace_chain (evs : List (JetstreamEvent × HandlerAttempts)) :
    ∀ s : MainStreamState,
      evs.Pairwise (fun p q => p.1.time_us ≤ q.1.time_us) →
      (∀ p ∈ evs, cursorLE s.lastCursor (some p.1.time_us)) →
      List.Chain' cursorLE (mainCursorTrace s evs) := by
  induction evs with
  | nil =>
    intro s _ _
    simp [mainCursorTrace]
  | cons p rest ih =>
    intro s hsort hinit
    have hstep : mainCursorTrace s (p :: rest)
        = s.lastCursor :: mainCursorTrace (processEventMain s p.1 p.2) rest := rfl
    rw [hstep, List.chain'_cons']
    have hc := processEventMain_cursor_cases s p.1 p.2
    constructor
    · intro y hy
      rw [mainCursorTrace_head, Option.mem_def, Option.some_inj] at hy
      rw [← hy]
      rcases hc with h | h
      · rw [h]
        exact cursorLE_refl _
      · rw [h]
        exact hinit p (by simp)
    · apply ih
      · exact hsort.of_cons
      · intro q hq
        rcases hc with h | h
        · rw [h]
          exact hinit q (by simp [hq])
        · rw [h]
          exact cursorLE_some_some (List.rel_of_pairwise_cons hsort hq)

/-- Helper: temporary-stream cursor traces are non-decreasing for sorted inputs. -/
theorem tempCursorTrace_chain (evs : List (JetstreamEvent × Bool)) :
    ∀ s : TempStreamState,
      evs.Pairwise (fun p q => p.1.time_us ≤ q.1.time_us) →
      (∀ p ∈ evs, cursorLE s.lastCursor (some p.1.time_us)) →
      List.Chain' cursorLE (tempCursorTrace s evs) := by
  induction evs with
  | nil =>
    intro s _ _
    simp [tempCursorTrace]
  | cons p rest ih =>
    intro s hsort hinit
    have hstep : tempCursorTrace s (p :: rest)
        = s.lastCursor :: tempCursorTrace (processEventTemp s p.1 p.2) rest := rfl
    rw [hstep, List.chain'_cons']
    have hc := processEventTemp_cursor_cases s p.1 p.2
    constructor
    · intro y hy
      rw [tempCursorTrace_head, Option.mem_def, Option.some_inj] at hy
      rw [← hy]
      rcases hc with h | h
      · rw [h]
        exact cursorLE_refl _
      · rw [h]
        exact hinit p (by simp)
    · apply ih
      · exact hsort.of_cons
      · intro q hq
        rcases hc with h | h
        · rw [h]
          exact hinit q (by simp [hq])
        · rw [h]
          exact cursorLE_some_some (List.rel_of_pairwise_cons hsort hq)

/-- C8: along any event sequence whose upstream timestamps are non-decreasing
and not earlier than the stream's current cursor, the successive lastCursor
values of the main stream and of any temporary stream never decrease. -/
theorem lastCursor_monotone (ms : MainStreamState)
    (mevs : List (JetstreamEvent × HandlerAttempts))
    (hmsort : mevs.Pairwise (fun p q => p.1.time_us ≤ q.1.time_us))
    (hminit : ∀ p ∈ mevs, cursorLE ms.lastCursor (some p.1.time_us))
    (ts : TempStreamState) (tevs : List (JetstreamEvent × Bool))
    (htsort : tevs.Pairwise (fun p q => p.1.time_us ≤ q.1.time_us))
    (htinit : ∀ p ∈ tevs, cursorLE ts.lastCursor (some p.1.time_us)) :
    List.Chain' cursorLE (mainCursorTrace ms mevs) ∧
    List.Chain' cursorLE (tempCursorTrace ts tevs) :=
  ⟨mainCursorTrace_chain mevs ms hmsort hminit,
   tempCursorTrace_chain tevs ts htsort htinit⟩

/-- C8 witness: concrete two-event traces for both stream kinds (the second
main-stream event has a failing handler, leaving the cursor in place). -/
theorem lastCursor_monotone_witness :
    List.Chain' cursorLE (mainCursorTrace initMainStreamState
      [({ kind := "identity", did := "did:plc:a", time_us := 5 },
        { identityTries := [true] }),
       ({ kind := "commit", did := "did:plc:a", time_us := 9 },
        { profileTries := [false] })]) ∧
    List.Chain' cursorLE (tempCursorTrace tempCexState
      [({ kind := "commit", did := "did:plc:a", time_us := 5 }, true),
       ({ kind := "identity", did := "did:plc:a", time_us := 9 }, false)]) :=
  lastCursor_monotone initMainStreamState
    [({ kind := "identity", did := "did:plc:a", time_us := 5 },
      { identityTries := [true] }),
     ({ kind := "commit", did := "did:plc:a", time_us := 9 },
      { profileTries := [false] })]
    (by decide) (by decide)
    tempCexState
    [({ kind := "commit", did := "did:plc:a", time_us := 5 }, true),
     ({ kind := "identity", did := "did:plc:a", time_us := 9 }, false)]
    (by decide) (by decide)

/-- C9 counterexample: 40 s after start, with a processed cursor and an open
socket, the socket 'close' event leaves the status reporting isRunning = true
and hasValidCursor = true, refuting the claim that both become false while
disconnected. -/
theorem status_stays_true_after_disconnect :
    (getMainStreamStatus (mainOnSocketClose connectedMainState)
        1700000040000).isRunning = true ∧
    (getMainStreamStatus (mainOnSocketClose connectedMainState)
        1700000040000).hasValidCursor = true := by
  decide

/-- C9 amended: a socket disconnect leaves the status snapshot entirely
unchanged — `this.ws` is kept for the scheduled reconnect, so isRunning and
hasValidCursor keep their prior values; both report false after stop() clears
the socket and cursor. -/
theorem status_after_disconnect (s : MainStreamState) (nowMs : Int) :
    getMainStreamStatus (mainOnSocketClose s) nowMs = getMainStreamStatus s nowMs ∧
    (getMainStreamStatus (mainStop s) nowMs).isRunning = false ∧
    (getMainStreamStatus (mainStop s) nowMs).hasValidCursor = false := by
  refine ⟨?_, ?_, ?_⟩
  · cases hws : s.ws <;>
      simp [getMainStreamStatus, mainOnSocketClose, isRunningWithCursor, hws]
  · simp [getMainStreamStatus, mainStop]
  · simp [getMainStreamStatus, mainStop]

set_option maxRecDepth 100000 in
/-- C6 counterexample: with the configured maximum of 50, fill all slots,
queue a user whose entire follow list is ignored and one further user, then
let one stream stop: its finalization promotes the all-ignored user without
starting a stream, leaving the queue non-empty with only 49 active — the
claimed "queue non-empty implies active = max" fails. -/
theorem tempPool_queue_nonempty_below_max :
    (runManagerOps MAX_CONCURRENT_TEMP_STREAMS managerCexOps).queue.length = 1 ∧
    (runManagerOps MAX_CONCURRENT_TEMP_STREAMS managerCexOps).activeStreams.length
      = 49 := by
  decide

/-- Helper: insertKey grows a key list by at most one. -/
theorem insertKey_length_le (keys : List String) (k : String) :
    (insertKey keys k).length ≤ keys.length + 1 := by
  unfold insertKey
  split
  · omega
  · simp

/-- Helper: startStreamForUser grows the active table by at most one. -/
theorem startStreamForUser_active_le (ignored : List String) (s : ManagerState)
    (u : String) (follows : List String) :
    (startStreamForUser ignored s u follows).1.activeStreams.length
      ≤ s.activeStreams.length + 1 := by
  simp only [startStreamForUser]
  split
  · simp
  · simpa using insertKey_length_le s.activeStreams u

/-- Helper: processQueue keeps the active table within the limit. -/
theorem processQueue_active_le (maxStreams : Nat) (ignored : List String)
    (s : ManagerState) (h : s.activeStreams.length ≤ maxStreams) :
    (processQueue maxStreams ignored s).activeStreams.length ≤ maxStreams := by
  unfold processQueue
  split
  · exact h
  · rename_i next rest hq
    split
    · exact h
    · rename_i hcap
      have hle : (startStreamForUser ignored { s with queue := rest }
            next.userDID next.follows).1.activeStreams.length
          ≤ s.activeStreams.length + 1 :=
        startStreamForUser_active_le ignored { s with queue := rest }
          next.userDID next.follows
      omega

/-- Helper: each completed manager operation preserves the capacity bound. -/
theorem applyManagerOp_active_le (maxStreams : Nat) (s : ManagerState)
    (op : ManagerOp) (h : s.activeStreams.length ≤ maxStreams) :
    (applyManagerOp maxStreams s op).activeStreams.length ≤ maxStreams := by
  cases op with
  | start ignored u follows =>
    show (startForUser maxStreams ignored s u follows).1.activeStreams.length
        ≤ maxStreams
    simp only [startForUser]
    split
    · exact h
    · split
      · exact h
      · rename_i hcap
        have hle : (startStreamForUser ignored s u follows).1.activeStreams.length
            ≤ s.activeStreams.length + 1 :=
          startStreamForUser_active_le ignored s u follows
        omega
  | finalize ignored u =>
    show (finalizeStream maxStreams ignored s u).activeStreams.length ≤ maxStreams
    unfold finalizeStream
    split
    · apply processQueue_active_le
      show (s.activeStreams.filter (fun v => !(v == u))).length ≤ maxStreams
      exact le_trans (List.length_filter_le _ _) h
    · exact h

/-- Helper: the capacity bound holds along any operation sequence. -/
theorem manager_foldl_le (maxStreams : Nat) (ops : List ManagerOp) :
    ∀ s : ManagerState, s.activeStreams.length ≤ maxStreams →
      (ops.foldl (applyManagerOp maxStreams) s).activeStreams.length ≤ maxStreams := by
  induction ops with
  | nil =>
    intro s h
    simpa using h
  | cons op rest ih =>
    intro s h
    exact ih (applyManagerOp maxStreams s op) (applyManagerOp_active_le maxStreams s op h)

/-- C6 amended: the number of active temporary streams never exceeds the
configured maximum, and startForUser queues a request only when the pool is
exactly at capacity; however after a queue promotion whose user has no
non-ignored follows, the queue can remain non-empty while the pool is below
capacity. -/
theorem tempPool_capacity (maxStreams : Nat) (ops : List ManagerOp) :
    (runManagerOps maxStreams ops).activeStreams.length ≤ maxStreams ∧
    (∀ (ignored : List String) (u : String) (follows : List String),
      (startForUser maxStreams ignored (runManagerOps maxStreams ops) u follows).2
        = StartOutcome.queued →
      (runManagerOps maxStreams ops).activeStreams.length = maxStreams) := by
  have hlen : (runManagerOps maxStreams ops).activeStreams.length ≤ maxStreams :=
    manager_foldl_le maxStreams ops initManagerState (by simp [initManagerState])
  refine ⟨hlen, ?_⟩
  intro ignored u follows h
  unfold startForUser at h
  split at h
  · simp at h
  · split at h
    · rename_i hcap
      omega
    · simp only [startStreamForUser] at h
      split at h <;> simp at h

/-- C6 witness: with capacity 1 and one active user, a second request is
queued and the pool is exactly at its maximum. -/
theorem tempPool_capacity_witness :
    (runManagerOps 1 [ManagerOp.start [] "did:plc:a" ["did:plc:f"]]).activeStreams.length
      ≤ 1 ∧
    (runManagerOps 1 [ManagerOp.start [] "did:plc:a" ["did:plc:f"]]).activeStreams.length
      = 1 :=
  ⟨(tempPool_capacity 1 [ManagerOp.start [] "did:plc:a" ["did:plc:f"]]).1,
   (tempPool_capacity 1 [ManagerOp.start [] "did:plc:a" ["did:plc:f"]]).2
     [] "did:plc:b" ["did:plc:g"] (by decide)⟩

/-- C10: a follow-create commit from a monitoring user whose followed
subject's handle cannot be resolved performs no state change — no
monitored_follows upsert, no removal, no DID-set reconciliation request —
only a warning is emitted. -/
theorem followCreate_unresolved_handle_noop (e : JetstreamEvent) (env : FollowEnv)
    (fromTempStream isInBackfill : Bool) (commit : CommitData)
    (record : CommitRecord) (subject : String)
    (hkind : e.kind = "commit")
    (hcommit : e.commit = some commit)
    (hcol : commit.collection = "app.bsky.graph.follow")
    (hop : commit.operation = "create")
    (hmon : env.hasMonitoring = true)
    (hlive : isInBackfill = false ∨ fromTempStream = true)
    (hrec : commit.record = some record)
    (hsub : record.subject = some subject)
    (hne : subject ≠ "")
    (hres : env.resolve subject = none) :
    handleFollowEvent e env fromTempStream isInBackfill
      = { upsertedFollow := none, removedByRkey := none,
          reloadRequested := false, warned := true } := by
  have hempty : subject.isEmpty = false := by
    rcases hie : subject.isEmpty with _ | _
    · rfl
    · exact absurd ((String.isEmpty_iff subject).mp hie) hne
  have hback : (isInBackfill && !fromTempStream) = false := by
    rcases hlive with h | h <;> simp [h]
  simp [handleFollowEvent, hkind, hcommit, hcol, hop, hmon, hback, hrec, hsub,
    hempty, hres]

/-- C10 witness: a concrete follow-create whose subject handle resolution
fails yields exactly the warning-only effect. -/
theorem followCreate_unresolved_handle_noop_witness :
    handleFollowEvent
        { kind := "commit", did := "did:plc:u", time_us := 1,
          commit := some { operation := "create",
                           collection := "app.bsky.graph.follow",
                           rkey := some "k1",
                           record := some { subject := some "did:plc:c" } } }
        { hasMonitoring := true, resolve := fun _ => none,
          existingFollowDIDs := [], followDIDByRkey := none,
          allMonitoredDIDs := [] }
        false false
      = { upsertedFollow := none, removedByRkey := none,
          reloadRequested := false, warned := true } :=
  followCreate_unresolved_handle_noop
    { kind := "commit", did := "did:plc:u", time_us := 1,
      commit := some { operation := "create",
                       collection := "app.bsky.graph.follow",
                       rkey := some "k1",
                       record := some { subject := some "did:plc:c" } } }
    { hasMonitoring := true, resolve := fun _ => none,
      existingFollowDIDs := [], followDIDByRkey := none,
      allMonitoredDIDs := [] }
    false false
    { operation := "create", collection := "app.bsky.graph.follow",
      rkey := some "k1", record := some { subject := some "did:plc:c" } }
    { subject := some "did:plc:c" }
    "did:plc:c"
    rfl rfl rfl rfl rfl (Or.inl rfl) rfl rfl (by decide) rfl

end Spooktober
